import Mathlib

/-! Verification of the mongo-cache-stats repository (two Python source files:
`mongo_cache_stats.py`, the CLI variant, and `mongo_cache_stats_streamlit.py`,
the dashboard variant) against its natural-language specification.

The embedding below translates the per-interval sampling, delta and
cache-accounting arithmetic of both variants into executable Lean
definitions.  Conventions:

* Python machine integers are `Int`; Python's `int(x)` applied to a quotient
  of integers truncates toward zero, embedded as `Int.tdiv` (division
  happens at exact rational precision in the embedding).
* Python floats arising from the percentage arithmetic are embedded as exact
  rationals `ℚ`; the literals `1.25` and `0.80` are exactly representable.
* A `collstats` server response is a structure; fields the code reads with
  `dict.get(key, default)` are `Option` fields, fields indexed directly are
  plain fields.  The per-index maps `indexDetails` / `indexSizes` are total
  functions from index names (the code only ever indexes them at names the
  server reported; `indexSizes.get(name, 0)` in the dashboard variant is the
  total function returning 0 at absent names).
* Python's raising division `/` is embedded, where a claim is about
  division-by-zero behaviour, as `pyDiv : ℚ → ℚ → Except Unit ℚ` which
  errors exactly when the denominator is zero.
* Rendering (tabulate / st.dataframe) only permutes rows (a sort by cache
  bytes), so membership statements about the row lists are statements about
  the rendered output.
-/

namespace MongoCacheStats

/-- Python's `str.startswith(p)`: character-level prefix test. -/
def pyStartswith (s p : String) : Bool := p.data.isPrefixOf s.data

/-- Python's `int(q)` on a rational value: truncation toward zero. -/
def pyInt (q : ℚ) : Int := Int.tdiv q.num (q.den : Int)

/-- Python's `/` on numbers, with its raising behaviour on a zero
denominator made explicit: `Except.error ()` models `ZeroDivisionError`. -/
def pyDiv (a b : ℚ) : Except Unit ℚ :=
  if b = 0 then Except.error () else Except.ok (a / b)

/-- The fixed reporting interval in seconds: `reportTime = 60`
(`mongo_cache_stats.py` line 145). -/
def reportTime : Int := 60

/-- The collection overhead constant `COLLECTION_CACHE_OVERHEAD = 1.25`
(both variants). -/
def COLLECTION_CACHE_OVERHEAD : ℚ := 1.25

/-- The index efficiency constant `INDEX_CACHE_OVERHEAD = 0.80`
(both variants). -/
def INDEX_CACHE_OVERHEAD : ℚ := 0.80

/-- The four cumulative WiredTiger cache counters extracted from a `cache`
sub-document: `bytes currently in the cache`, `bytes read into cache`,
`bytes written from cache`, `pages requested from the cache`. -/
structure CacheStats where
  bytesInCache : Int
  bytesReadInto : Int
  bytesWrittenFrom : Int
  pagesRequested : Int
deriving Repr, DecidableEq

/-- A `collstats` server response, restricted to the fields the two scripts
read.  `viewErrmsg` is true when the response carries
`errmsg == "Collection stats not supported on views"`.  `size`,
`storageSize`, `count`, `avgObjSize` are `Option` because the code reads
them with `.get(key, default)` (or, for `size` in the dashboard variant, by
direct indexing, embedded by matching on the option). -/
structure CollStatsResponse where
  viewErrmsg : Bool
  cache : CacheStats
  size : Option Int
  storageSize : Option Int
  count : Option Int
  avgObjSize : Option Int
  totalIndexSize : Int
  indexDetailsKeys : List String
  indexDetails : String → CacheStats
  indexSizes : String → Int

/-- The per-index tracking record built at inventory time
(`mongo_cache_stats.py` lines 107-114): index name plus the four stored
counters, all zero-initialized. -/
structure IndexRecord where
  name : String
  inCache : Int
  cacheRead : Int
  cacheWrite : Int
  pagesUsed : Int
deriving Repr, DecidableEq

/-- The per-collection tracking record built at inventory time
(`mongo_cache_stats.py` lines 130-142). -/
structure CollectionRecord where
  db : String
  coll : String
  inCache : Int
  cacheRead : Int
  cacheWrite : Int
  pagesUsed : Int
  dataSize : Int
  storageSize : Int
  docCount : Int
  avgDocSize : Int
  indexesInfo : List IndexRecord
deriving Repr, DecidableEq

/-- One row of the CLI table (`table_data` entries).  `pctCached` keeps the
exact rational value that the code formats as a percentage string;
`dataSize` is `none` on index rows (the code appends `None`). -/
structure Row where
  ns : String
  rowType : String
  cacheUsed : Int
  dataSize : Option Int
  storageSize : Int
  pctCached : ℚ
  sizeDiff : Int
  readDiff : Int
  writeDiff : Int
  pageUseDiff : Int
deriving Repr, DecidableEq

/-- The per-second delta of `mongo_cache_stats.py` lines 189-192 and
230-233: `int((cur - prev) / interval)`, i.e. exact division truncated
toward zero. -/
def delta (prev cur interval : Int) : Int := Int.tdiv (cur - prev) interval

/-- The collection percent-cached computation (`mongo_cache_stats.py` lines
198-202, `mongo_cache_stats_streamlit.py` lines 175-183):
`adjusted = cacheBytes / 1.25`;
`pct = adjusted / data_size * 100 if data_size > 0 else 0`;
`pct = min(pct, 100.0)`. -/
def doc_cache_pct (doc_cache_bytes data_size : Int) : ℚ :=
  let adjusted_doc_cache : ℚ := (doc_cache_bytes : ℚ) / COLLECTION_CACHE_OVERHEAD
  min (if data_size > 0 then adjusted_doc_cache / (data_size : ℚ) * 100 else 0) 100

/-- The index percent-cached computation (`mongo_cache_stats.py` lines
236-240, `mongo_cache_stats_streamlit.py` lines 217-221):
`adjusted = cacheBytes / 0.80`;
`pct = adjusted / index_size * 100 if index_size > 0 else 0`;
`pct = min(pct, 100.0)`. -/
def index_cache_pct (index_cache_bytes index_size : Int) : ℚ :=
  let adjusted_index_cache : ℚ := (index_cache_bytes : ℚ) / INDEX_CACHE_OVERHEAD
  min (if index_size > 0 then adjusted_index_cache / (index_size : ℚ) * 100 else 0) 100

/-- The per-index body of the CLI monitoring loop (`mongo_cache_stats.py`
lines 218-254): extract the index's current counters and size from the
collection's response, compute the four deltas against the stored record,
emit a row only when `index_size > 0`, and unconditionally overwrite the
stored counters. -/
def processIndex (ns : String) (collStats : CollStatsResponse)
    (indexInfo : IndexRecord) : Option Row × IndexRecord :=
  let indexStats := collStats.indexDetails indexInfo.name
  let index_cache_bytes := indexStats.bytesInCache
  let indexCacheRead := indexStats.bytesReadInto
  let indexCacheWrite := indexStats.bytesWrittenFrom
  let indexPagesUsed := indexStats.pagesRequested
  let index_size := collStats.indexSizes indexInfo.name
  let sizeDiff := delta indexInfo.inCache index_cache_bytes reportTime
  let readDiff := delta indexInfo.cacheRead indexCacheRead reportTime
  let writeDiff := delta indexInfo.cacheWrite indexCacheWrite reportTime
  let pageUseDiff := delta indexInfo.pagesUsed indexPagesUsed reportTime
  let index_ns := ns ++ "." ++ indexInfo.name
  let row :=
    if index_size > 0 then
      some { ns := index_ns, rowType := "Index", cacheUsed := index_cache_bytes,
             dataSize := none, storageSize := index_size,
             pctCached := index_cache_pct index_cache_bytes index_size,
             sizeDiff := sizeDiff, readDiff := readDiff,
             writeDiff := writeDiff, pageUseDiff := pageUseDiff }
    else none
  let indexInfo1 := { indexInfo with
        inCache := index_cache_bytes
        cacheRead := indexCacheRead
        cacheWrite := indexCacheWrite
        pagesUsed := indexPagesUsed }
  (row, indexInfo1)

/-- The per-collection body of the CLI monitoring loop
(`mongo_cache_stats.py` lines 162-254), for one tracked collection and the
`collstats` response obtained for it this interval.  Faithful points: the
`system.` and view skips leave the record untouched; `dataSize` /
`storageSize` on the record are updated before the `data_size > 0` gate;
when `data_size > 0` fails the loop does `continue`, so neither the
collection counters nor any index record is updated and no index row is
emitted. -/
def processCollection (collInfo : CollectionRecord)
    (collStats : CollStatsResponse) : List Row × CollectionRecord :=
  if pyStartswith collInfo.coll "system." then ([], collInfo)
  else if collStats.viewErrmsg then ([], collInfo)
  else
    let doc_cache_bytes := collStats.cache.bytesInCache
    let cacheRead := collStats.cache.bytesReadInto
    let cacheWrite := collStats.cache.bytesWrittenFrom
    let pagesUsed := collStats.cache.pagesRequested
    let data_size := collStats.size.getD 0
    let storage_size := collStats.storageSize.getD data_size
    let collInfo1 := { collInfo with dataSize := data_size, storageSize := storage_size }
    let sizeDiff := delta collInfo.inCache doc_cache_bytes reportTime
    let readDiff := delta collInfo.cacheRead cacheRead reportTime
    let writeDiff := delta collInfo.cacheWrite cacheWrite reportTime
    let pageUseDiff := delta collInfo.pagesUsed pagesUsed reportTime
    let ns := collInfo.db ++ "." ++ collInfo.coll
    if data_size > 0 then
      let collRow : Row :=
        { ns := ns, rowType := "Collection", cacheUsed := doc_cache_bytes,
          dataSize := some data_size, storageSize := storage_size,
          pctCached := doc_cache_pct doc_cache_bytes data_size,
          sizeDiff := sizeDiff, readDiff := readDiff,
          writeDiff := writeDiff, pageUseDiff := pageUseDiff }
      let collInfo2 := { collInfo1 with
            inCache := doc_cache_bytes
            cacheRead := cacheRead
            cacheWrite := cacheWrite
            pagesUsed := pagesUsed }
      let results := collInfo2.indexesInfo.map (processIndex ns collStats)
      (collRow :: results.filterMap Prod.fst,
       { collInfo2 with indexesInfo := results.map Prod.snd })
    else
      ([], collInfo1)

/-- One full pass of the CLI monitoring loop over the fixed inventory list:
each tracked collection is processed with the `collstats` response for its
namespace; the emitted rows are concatenated (the subsequent sort by cache
bytes only permutes them) and the updated records replace the old ones in
place. -/
def samplerStep (collectionInfos : List CollectionRecord)
    (collstats : String → String → CollStatsResponse) :
    List Row × List CollectionRecord :=
  let results := collectionInfos.map fun collInfo =>
    processCollection collInfo (collstats collInfo.db collInfo.coll)
  ((results.map Prod.fst).flatten, results.map Prod.snd)

/-- Inventory-time construction of one index record
(`mongo_cache_stats.py` lines 107-114): zero-initialized counters. -/
def inventoryIndexRecord (name : String) : IndexRecord :=
  { name := name, inCache := 0, cacheRead := 0, cacheWrite := 0, pagesUsed := 0 }

/-- Inventory-time construction of one collection record
(`mongo_cache_stats.py` lines 116-142).  `collStats = none` models the
`except:` branch where the statistics query failed and all four size fields
default to zero; otherwise `size` defaults to 0 and `storageSize` to the
data size. -/
def inventoryCollectionRecord (dbName collectionName : String)
    (indexNames : List String) (collStats : Option CollStatsResponse) :
    CollectionRecord :=
  match collStats with
  | some s =>
      let data_size := s.size.getD 0
      { db := dbName, coll := collectionName, inCache := 0, cacheRead := 0,
        cacheWrite := 0, pagesUsed := 0, dataSize := data_size,
        storageSize := s.storageSize.getD data_size, docCount := s.count.getD 0,
        avgDocSize := s.avgObjSize.getD 0,
        indexesInfo := indexNames.map inventoryIndexRecord }
  | none =>
      { db := dbName, coll := collectionName, inCache := 0, cacheRead := 0,
        cacheWrite := 0, pagesUsed := 0, dataSize := 0, storageSize := 0,
        docCount := 0, avgDocSize := 0,
        indexesInfo := indexNames.map inventoryIndexRecord }

/-- One entry of a `list_collections` response: collection name and type
(`"view"` marks views). -/
structure CollEntry where
  name : String
  collType : String
deriving Repr, DecidableEq

/-- One row of the dashboard's `detailed_stats` list
(`mongo_cache_stats_streamlit.py` lines 198-234).  Fields the code sets to
`None` on index rows are `Option`. -/
structure StRow where
  ns : String
  rowType : String
  indexName : String
  cacheUsed : Int
  dataSize : Option Int
  storageSize : Int
  pctCached : ℚ
  totalDocs : Option Int
  avgDocSize : Option Int
  estDocsInCache : Option Int
deriving Repr, DecidableEq

/-- The per-collection body of the dashboard's `get_collection_stats`
(`mongo_cache_stats_streamlit.py` lines 148-234): skip views and `system.`
collections with no output; otherwise read the collection's `collstats`
response and emit one pie-chart entry, one collection row, and one index
row per entry of `indexDetails` — the rows are appended unconditionally,
with no gate on `data_size` or `index_size`.  The result is `none` when the
required `size` field is absent (the code's direct `collStats["size"]`
indexing would raise, aborting the whole refresh). -/
def stProcessColl (collstats : String → String → CollStatsResponse)
    (dbName : String) (collection : CollEntry) :
    Option (List (String × Int) × List StRow) :=
  if collection.collType = "view" then some ([], [])
  else if pyStartswith collection.name "system." then some ([], [])
  else
    let collStats := collstats dbName collection.name
    if collStats.viewErrmsg then some ([], [])
    else
      match collStats.size with
      | none => none
      | some data_size =>
        let ns := dbName ++ "." ++ collection.name
        let doc_cache_bytes := collStats.cache.bytesInCache
        let storage_size := collStats.storageSize.getD data_size
        let doc_count := collStats.count.getD 0
        let avg_doc_size := collStats.avgObjSize.getD 0
        let adjusted_doc_cache : ℚ := (doc_cache_bytes : ℚ) / COLLECTION_CACHE_OVERHEAD
        let est_docs_in_cache :=
          if avg_doc_size > 0 then pyInt (adjusted_doc_cache / (avg_doc_size : ℚ)) else 0
        let est_docs_in_cache := min est_docs_in_cache doc_count
        let total_index_cache :=
          (collStats.indexDetailsKeys.map fun n => (collStats.indexDetails n).bytesInCache).sum
        let total_cache := doc_cache_bytes + total_index_cache
        let collRow : StRow :=
          { ns := ns, rowType := "Collection", indexName := "",
            cacheUsed := doc_cache_bytes, dataSize := some data_size,
            storageSize := storage_size,
            pctCached := doc_cache_pct doc_cache_bytes data_size,
            totalDocs := some doc_count, avgDocSize := some avg_doc_size,
            estDocsInCache := some est_docs_in_cache }
        let idxRows := collStats.indexDetailsKeys.map fun indexName =>
          let index_cache_bytes := (collStats.indexDetails indexName).bytesInCache
          let index_size := collStats.indexSizes indexName
          { ns := ns, rowType := "Index", indexName := indexName,
            cacheUsed := index_cache_bytes, dataSize := none,
            storageSize := index_size,
            pctCached := index_cache_pct index_cache_bytes index_size,
            totalDocs := none, avgDocSize := none,
            estDocsInCache := none : StRow }
        some ([(ns, total_cache)], collRow :: idxRows)

/-- The inner collection loop of `get_collection_stats` over one database's
current `list_collections` result, concatenating pie entries and rows in
order; a `none` (raised `KeyError`) aborts the whole pass, as the code's
top-level `except` would. -/
def stProcessColls (collstats : String → String → CollStatsResponse)
    (dbName : String) : List CollEntry → Option (List (String × Int) × List StRow)
  | [] => some ([], [])
  | c :: rest => do
    let p1 ← stProcessColl collstats dbName c
    let p2 ← stProcessColls collstats dbName rest
    some (p1.1 ++ p2.1, p1.2 ++ p2.2)

/-- The dashboard's `get_collection_stats`, as a function of the database
enumeration taken **at this refresh** (the function re-runs
`listDatabases` / `list_collections` on every refresh; no tracking state is
carried across refreshes).  Returns the pie-chart data and the detailed
row list. -/
def stGetCollectionStats (collstats : String → String → CollStatsResponse) :
    List (String × List CollEntry) → Option (List (String × Int) × List StRow)
  | [] => some ([], [])
  | (dbName, colls) :: rest => do
    let p1 ← stProcessColls collstats dbName colls
    let p2 ← stGetCollectionStats collstats rest
    some (p1.1 ++ p2.1, p1.2 ++ p2.2)

/-- The dashboard's "Cache Usage" summary metric
(`mongo_cache_stats_streamlit.py` line 289):
`sum_used_cache / total_cache_size`, with **no** guard on the denominator —
the division raises when `total_cache_size` is zero. -/
def stSummaryCacheUsage (sum_used_cache total_cache_size : Int) : Except Unit ℚ :=
  pyDiv (sum_used_cache : ℚ) (total_cache_size : ℚ)

/-- The collection percent-cached computation with every division made
explicitly fallible (`pyDiv`), embedding the same source lines as
`doc_cache_pct`: the division by the constant `1.25` is unguarded in the
code, the division by `data_size` sits inside the `if data_size > 0`
conditional expression. -/
def doc_cache_pct_checked (doc_cache_bytes data_size : Int) : Except Unit ℚ := do
  let adjusted_doc_cache ← pyDiv (doc_cache_bytes : ℚ) COLLECTION_CACHE_OVERHEAD
  let pct ← if data_size > 0 then do
      let q ← pyDiv adjusted_doc_cache (data_size : ℚ)
      Except.ok (q * 100)
    else Except.ok (0 : ℚ)
  Except.ok (min pct 100)

/-- The index percent-cached computation with explicitly fallible
divisions, embedding the same source lines as `index_cache_pct`. -/
def index_cache_pct_checked (index_cache_bytes index_size : Int) : Except Unit ℚ := do
  let adjusted_index_cache ← pyDiv (index_cache_bytes : ℚ) INDEX_CACHE_OVERHEAD
  let pct ← if index_size > 0 then do
      let q ← pyDiv adjusted_index_cache (index_size : ℚ)
      Except.ok (q * 100)
    else Except.ok (0 : ℚ)
  Except.ok (min pct 100)

/-- The dashboard's `% of Total Cache` column
(`mongo_cache_stats_streamlit.py` line 311):
`x / total_cache_size * 100 if total_cache_size > 0 else 0`. -/
def pct_of_total_cache (x total_cache_size : Int) : Except Unit ℚ :=
  if total_cache_size > 0 then do
    let q ← pyDiv (x : ℚ) (total_cache_size : ℚ)
    Except.ok (q * 100)
  else Except.ok 0

/-- The dashboard's `% of Used Cache` column
(`mongo_cache_stats_streamlit.py` line 312):
`x / total_used_cache * 100 if total_used_cache > 0 else 0`. -/
def pct_of_used_cache (x total_used_cache : Int) : Except Unit ℚ :=
  if total_used_cache > 0 then do
    let q ← pyDiv (x : ℚ) (total_used_cache : ℚ)
    Except.ok (q * 100)
  else Except.ok 0

/-- The dashboard's estimated-documents-in-cache computation
(`mongo_cache_stats_streamlit.py` lines 175-179) with explicitly fallible
divisions: `int(adjusted / avg_doc_size) if avg_doc_size > 0 else 0`,
capped at `doc_count`. -/
def est_docs_in_cache_checked (doc_cache_bytes avg_doc_size doc_count : Int) :
    Except Unit Int := do
  let adjusted_doc_cache ← pyDiv (doc_cache_bytes : ℚ) COLLECTION_CACHE_OVERHEAD
  let est ← if avg_doc_size > 0 then do
      let q ← pyDiv adjusted_doc_cache (avg_doc_size : ℚ)
      Except.ok (pyInt q)
    else Except.ok (0 : Int)
  Except.ok (min est doc_count)

/-- The dashboard's collection-level total-index percentage
(`mongo_cache_stats_streamlit.py` line 191):
`total_index_cache / total_index_size * 100 if total_index_size > 0 else 0`
(computed and then shadowed by the per-index loop, but it is a division in
the reporting path). -/
def st_total_index_cache_pct (total_index_cache total_index_size : Int) :
    Except Unit ℚ :=
  if total_index_size > 0 then do
    let q ← pyDiv (total_index_cache : ℚ) (total_index_size : ℚ)
    Except.ok (q * 100)
  else Except.ok 0

/-- The CLI delta computation with its division made explicitly fallible:
`int((cur - prev) / reportTime)` divides by the constant interval `60`. -/
def delta_checked (prev cur : Int) : Except Unit Int := do
  let q ← pyDiv ((cur : ℚ) - (prev : ℚ)) (reportTime : ℚ)
  Except.ok (pyInt q)

/-- Sample cache counters for a collection, used to evaluate the embedding
at concrete inputs. -/
def cacheW : CacheStats := ⟨300, 600, 120, 60⟩

/-- Sample cache counters for an index. -/
def idxCacheW : CacheStats := ⟨80, 240, 0, 12⟩

/-- Sample `collstats` response with positive sizes and one index. -/
def respW : CollStatsResponse :=
  { viewErrmsg := false, cache := cacheW, size := some 100,
    storageSize := some 150, count := some 10, avgObjSize := some 10,
    totalIndexSize := 50, indexDetailsKeys := ["f_1"],
    indexDetails := fun _ => idxCacheW, indexSizes := fun _ => 50 }

/-- Sample response reporting a zero logical size. -/
def respZeroW : CollStatsResponse := { respW with size := some 0 }

/-- Sample response with zero logical size, zero storage size and zero
index sizes. -/
def respZeroSizesW : CollStatsResponse :=
  { respW with size := some 0, storageSize := some 0, indexSizes := fun _ => 0 }

/-- Sample response with no `storageSize` field. -/
def respNoStorageW : CollStatsResponse := { respW with storageSize := none }

/-- Sample tracking record for collection `db1.orders` with one index,
zero-initialized as at inventory time. -/
def recW : CollectionRecord :=
  { db := "db1", coll := "orders", inCache := 0, cacheRead := 0,
    cacheWrite := 0, pagesUsed := 0, dataSize := 0, storageSize := 0,
    docCount := 0, avgDocSize := 0, indexesInfo := [⟨"f_1", 0, 0, 0, 0⟩] }

/-- Sample tracking record for a `system.` collection. -/
def recSysW : CollectionRecord := { recW with coll := "system.profile" }

/-- Sample statistics oracle answering `respW` for every namespace. -/
def statsW : String → String → CollStatsResponse := fun _ _ => respW

/-- Sample statistics oracle answering `respZeroSizesW` for every
namespace. -/
def statsZeroSizesW : String → String → CollStatsResponse := fun _ _ => respZeroSizesW

/-- Sample `list_collections` entry for an ordinary collection. -/
def collEntryW : CollEntry := ⟨"orders", "collection"⟩

/-- Sample `list_collections` entry for a `system.` collection. -/
def sysEntryW : CollEntry := ⟨"system.views", "collection"⟩

/-- Sample database enumeration at dashboard startup: one collection. -/
def dbsBeforeW : List (String × List CollEntry) := [("db1", [collEntryW])]

/-- Sample database enumeration at a later dashboard refresh: a second
collection `fresh` has been created since startup. -/
def dbsAfterW : List (String × List CollEntry) :=
  [("db1", [collEntryW, ⟨"fresh", "collection"⟩])]

/-!  Helper lemmas shared by the claim theorems. -/

/-- Updating an index record never changes its name. -/
theorem processIndex_snd_name (ns : String) (collStats : CollStatsResponse)
    (indexInfo : IndexRecord) :
    ((processIndex ns collStats indexInfo).2).name = indexInfo.name := rfl

/-- The state component of `processIndex`: the stored counters are
overwritten with the current values, unconditionally. -/
theorem processIndex_snd_eq (ns : String) (collStats : CollStatsResponse)
    (indexInfo : IndexRecord) :
    (processIndex ns collStats indexInfo).2 =
      { indexInfo with
        inCache := (collStats.indexDetails indexInfo.name).bytesInCache
        cacheRead := (collStats.indexDetails indexInfo.name).bytesReadInto
        cacheWrite := (collStats.indexDetails indexInfo.name).bytesWrittenFrom
        pagesUsed := (collStats.indexDetails indexInfo.name).pagesRequested } := rfl

/-- The row component of `processIndex`: a row is emitted exactly when the
index size is positive. -/
theorem processIndex_fst_eq (ns : String) (collStats : CollStatsResponse)
    (indexInfo : IndexRecord) :
    (processIndex ns collStats indexInfo).1 =
      (if collStats.indexSizes indexInfo.name > 0 then
        some { ns := ns ++ "." ++ indexInfo.name, rowType := "Index",
               cacheUsed := (collStats.indexDetails indexInfo.name).bytesInCache,
               dataSize := none,
               storageSize := collStats.indexSizes indexInfo.name,
               pctCached := index_cache_pct
                 (collStats.indexDetails indexInfo.name).bytesInCache
                 (collStats.indexSizes indexInfo.name),
               sizeDiff := delta indexInfo.inCache
                 (collStats.indexDetails indexInfo.name).bytesInCache reportTime,
               readDiff := delta indexInfo.cacheRead
                 (collStats.indexDetails indexInfo.name).bytesReadInto reportTime,
               writeDiff := delta indexInfo.cacheWrite
                 (collStats.indexDetails indexInfo.name).bytesWrittenFrom reportTime,
               pageUseDiff := delta indexInfo.pagesUsed
                 (collStats.indexDetails indexInfo.name).pagesRequested reportTime }
      else none) := rfl

/-- Over an interval on a non-`system.`, non-view collection with positive
reported data size, the updated record stores the current counter values
and the per-index updates of its indexes. -/
theorem processCollection_snd_pos (collInfo : CollectionRecord)
    (collStats : CollStatsResponse)
    (h1 : pyStartswith collInfo.coll "system." = false)
    (h2 : collStats.viewErrmsg = false)
    (h3 : 0 < collStats.size.getD 0) :
    (processCollection collInfo collStats).2 =
      { db := collInfo.db, coll := collInfo.coll,
        inCache := collStats.cache.bytesInCache,
        cacheRead := collStats.cache.bytesReadInto,
        cacheWrite := collStats.cache.bytesWrittenFrom,
        pagesUsed := collStats.cache.pagesRequested,
        dataSize := collStats.size.getD 0,
        storageSize := collStats.storageSize.getD (collStats.size.getD 0),
        docCount := collInfo.docCount, avgDocSize := collInfo.avgDocSize,
        indexesInfo := collInfo.indexesInfo.map fun idx =>
          (processIndex (collInfo.db ++ "." ++ collInfo.coll) collStats idx).2 } := by
  simp [processCollection, h1, h2, h3, List.map_map, Function.comp]

/-- Over an interval on a non-`system.`, non-view collection with positive
reported data size, the emitted rows are the collection row followed by the
per-index rows. -/
theorem processCollection_fst_pos (collInfo : CollectionRecord)
    (collStats : CollStatsResponse)
    (h1 : pyStartswith collInfo.coll "system." = false)
    (h2 : collStats.viewErrmsg = false)
    (h3 : 0 < collStats.size.getD 0) :
    (processCollection collInfo collStats).1 =
      { ns := collInfo.db ++ "." ++ collInfo.coll, rowType := "Collection",
        cacheUsed := collStats.cache.bytesInCache,
        dataSize := some (collStats.size.getD 0),
        storageSize := collStats.storageSize.getD (collStats.size.getD 0),
        pctCached := doc_cache_pct collStats.cache.bytesInCache (collStats.size.getD 0),
        sizeDiff := delta collInfo.inCache collStats.cache.bytesInCache reportTime,
        readDiff := delta collInfo.cacheRead collStats.cache.bytesReadInto reportTime,
        writeDiff := delta collInfo.cacheWrite collStats.cache.bytesWrittenFrom reportTime,
        pageUseDiff := delta collInfo.pagesUsed collStats.cache.pagesRequested reportTime } ::
      (collInfo.indexesInfo.map fun idx =>
        processIndex (collInfo.db ++ "." ++ collInfo.coll) collStats idx).filterMap
        Prod.fst := by
  simp [processCollection, h1, h2, h3, List.map_map, Function.comp]

/-- When the reported data size is not positive, the loop emits no row for
the collection and only the record's size fields change. -/
theorem processCollection_nonpos (collInfo : CollectionRecord)
    (collStats : CollStatsResponse)
    (h1 : pyStartswith collInfo.coll "system." = false)
    (h2 : collStats.viewErrmsg = false)
    (h3 : ¬ 0 < collStats.size.getD 0) :
    processCollection collInfo collStats =
      ([], { collInfo with
              dataSize := collStats.size.getD 0
              storageSize := collStats.storageSize.getD (collStats.size.getD 0) }) := by
  simp [processCollection, h1, h2, h3]

/-- A delta of a counter against itself is zero. -/
theorem delta_self (a n : Int) : delta a a n = 0 := by
  simp [delta, sub_self, Int.zero_tdiv]

/-- C1 (counterexample): the per-second delta computed by the Sampler is
`int((current - previous) / interval)`, which truncates toward zero, not
`floor`: with previous = 1, current = 0 and the fixed 60-second interval,
the code computes 0 while `floor((0 - 1) / 60) = -1`. -/
theorem C1_delta_floor_counterexample :
    delta 1 0 reportTime ≠ Int.fdiv (0 - 1) reportTime := by decide

/-- C1 (amended): for non-negative integers `a ≤ b` and positive
`interval`, the Sampler's delta of `(a, b)` equals
`floor((b - a) / interval)` and is non-negative, while the delta of
`(b, a)` (counter decreased) is non-positive and is exactly the negation of
the former — truncation toward zero, with no clamping in either
direction. -/
theorem C1_delta_truncating_rate (a b interval : Int) (ha : 0 ≤ a)
    (hab : a ≤ b) (hi : 0 < interval) :
    delta a b interval = Int.fdiv (b - a) interval ∧
    0 ≤ delta a b interval ∧
    delta b a interval ≤ 0 ∧
    delta b a interval = -(delta a b interval) := by
  have h1 : (0 : Int) ≤ b - a := by omega
  have h2 : (0 : Int) ≤ interval := le_of_lt hi
  have hfd : Int.fdiv (b - a) interval = Int.tdiv (b - a) interval :=
    Int.fdiv_eq_tdiv h1 h2
  have hnn : 0 ≤ delta a b interval := Int.tdiv_nonneg h1 h2
  have hneg : delta b a interval = -(delta a b interval) := by
    show Int.tdiv (a - b) interval = -(Int.tdiv (b - a) interval)
    rw [show a - b = -(b - a) by ring, Int.neg_tdiv]
  exact ⟨hfd.symm, hnn, by rw [hneg]; exact neg_nonpos.mpr hnn, hneg⟩

/-- C1 (witness): the spec's end-to-end example — counters 1000 then 4600,
60 seconds apart — gives a delta of 60 bytes per second, and the reversed
pair gives -60. -/
theorem C1_delta_truncating_rate_witness :
    delta 1000 4600 60 = Int.fdiv (4600 - 1000) 60 ∧
    0 ≤ delta 1000 4600 60 ∧
    delta 4600 1000 60 ≤ 0 ∧
    delta 4600 1000 60 = -(delta 1000 4600 60) :=
  C1_delta_truncating_rate 1000 4600 60 (by decide) (by decide) (by decide)

/-- C2: for any non-negative cacheBytes and positive size, both the
collection and the index percent-cached figures lie in [0, 100] and equal
the clamp of the adjusted ratio (`cacheBytes / 1.25 / size * 100`,
respectively `cacheBytes / 0.80 / size * 100`) to [0, 100]; whenever the
size denominator is zero the figure is 0. -/
theorem C2_percentCached_bounds (cacheBytes size : Int) (hb : 0 ≤ cacheBytes) :
    (0 < size →
      0 ≤ doc_cache_pct cacheBytes size ∧ doc_cache_pct cacheBytes size ≤ 100 ∧
      doc_cache_pct cacheBytes size =
        max 0 (min ((cacheBytes : ℚ) / COLLECTION_CACHE_OVERHEAD / (size : ℚ) * 100) 100) ∧
      0 ≤ index_cache_pct cacheBytes size ∧ index_cache_pct cacheBytes size ≤ 100 ∧
      index_cache_pct cacheBytes size =
        max 0 (min ((cacheBytes : ℚ) / INDEX_CACHE_OVERHEAD / (size : ℚ) * 100) 100)) ∧
    (size = 0 →
      doc_cache_pct cacheBytes size = 0 ∧ index_cache_pct cacheBytes size = 0) := by
  constructor
  · intro hs
    have hbq : (0 : ℚ) ≤ (cacheBytes : ℚ) := by exact_mod_cast hb
    have hsq : (0 : ℚ) < (size : ℚ) := by exact_mod_cast hs
    have hcol : (0 : ℚ) ≤ (cacheBytes : ℚ) / COLLECTION_CACHE_OVERHEAD / (size : ℚ) * 100 := by
      have : (0 : ℚ) < COLLECTION_CACHE_OVERHEAD := by norm_num [COLLECTION_CACHE_OVERHEAD]
      positivity
    have hidx : (0 : ℚ) ≤ (cacheBytes : ℚ) / INDEX_CACHE_OVERHEAD / (size : ℚ) * 100 := by
      have : (0 : ℚ) < INDEX_CACHE_OVERHEAD := by norm_num [INDEX_CACHE_OVERHEAD]
      positivity
    have edoc : doc_cache_pct cacheBytes size =
        min ((cacheBytes : ℚ) / COLLECTION_CACHE_OVERHEAD / (size : ℚ) * 100) 100 := by
      simp [doc_cache_pct, hs]
    have eidx : index_cache_pct cacheBytes size =
        min ((cacheBytes : ℚ) / INDEX_CACHE_OVERHEAD / (size : ℚ) * 100) 100 := by
      simp [index_cache_pct, hs]
    refine ⟨?_, ?_, ?_, ?_, ?_, ?_⟩
    · rw [edoc]; exact le_min hcol (by norm_num)
    · rw [edoc]; exact min_le_right _ _
    · rw [edoc]; exact (max_eq_right (le_min hcol (by norm_num))).symm
    · rw [eidx]; exact le_min hidx (by norm_num)
    · rw [eidx]; exact min_le_right _ _
    · rw [eidx]; exact (max_eq_right (le_min hidx (by norm_num))).symm
  · intro hs
    subst hs
    constructor
    · simp [doc_cache_pct]
    · simp [index_cache_pct]

/-- C2 (witness): at cacheBytes = 10 and size = 4 both percent figures are
within [0, 100]. -/
theorem C2_percentCached_bounds_witness :
    0 ≤ doc_cache_pct 10 4 ∧ doc_cache_pct 10 4 ≤ 100 ∧
    0 ≤ index_cache_pct 10 4 ∧ index_cache_pct 10 4 ≤ 100 := by
  have h := (C2_percentCached_bounds 10 4 (by decide)).1 (by decide)
  exact ⟨h.1, h.2.1, h.2.2.2.1, h.2.2.2.2.1⟩

/-- C8: with the fixed constants 1.25 and 0.80, collection cacheBytes 125
against logical size 100 gives adjusted = 100 and percentCached exactly
100, and index cacheBytes 80 against index size 100 gives adjusted = 100
and percentCached exactly 100. -/
theorem C8_overhead_constants_exact :
    (125 : ℚ) / COLLECTION_CACHE_OVERHEAD = 100 ∧
    doc_cache_pct 125 100 = 100 ∧
    (80 : ℚ) / INDEX_CACHE_OVERHEAD = 100 ∧
    index_cache_pct 80 100 = 100 := by
  refine ⟨by norm_num [COLLECTION_CACHE_OVERHEAD], ?_,
          by norm_num [INDEX_CACHE_OVERHEAD], ?_⟩
  · show min (if (100 : Int) > 0 then (125 : ℚ) / COLLECTION_CACHE_OVERHEAD / 100 * 100 else 0) 100 = 100
    norm_num [COLLECTION_CACHE_OVERHEAD]
  · show min (if (100 : Int) > 0 then (80 : ℚ) / INDEX_CACHE_OVERHEAD / 100 * 100 else 0) 100 = 100
    norm_num [INDEX_CACHE_OVERHEAD]

/-- C9: a collection whose name starts with `system.` is skipped in both
variants: the CLI loop emits no row for it and leaves its record untouched,
and the dashboard pass emits neither pie data nor table rows for it, in
every interval. -/
theorem C9_system_collections_skipped (collInfo : CollectionRecord)
    (collStats : CollStatsResponse)
    (collstats : String → String → CollStatsResponse) (dbName : String)
    (c : CollEntry)
    (h1 : pyStartswith collInfo.coll "system." = true)
    (h2 : pyStartswith c.name "system." = true) :
    processCollection collInfo collStats = ([], collInfo) ∧
    stProcessColl collstats dbName c = some ([], []) := by
  constructor
  · simp [processCollection, h1]
  · by_cases hv : c.collType = "view" <;> simp [stProcessColl, hv, h2]

/-- C9 (witness): the `system.profile` record and a `system.views` entry
produce no output and no state change. -/
theorem C9_system_collections_skipped_witness :
    processCollection recSysW respW = ([], recSysW) ∧
    stProcessColl statsW "db1" sysEntryW = some ([], []) :=
  C9_system_collections_skipped recSysW respW statsW "db1" sysEntryW
    (by decide) (by decide)

/-- C4 (counterexample): the overwrite of step 5 does **not** happen for
every sampled collection: on a non-`system.`, non-view collection whose
response reports data size 0, the loop `continue`s before the state update,
so the stored counter stays 0 while the current value is 300. -/
theorem C4_overwrite_counterexample :
    pyStartswith recW.coll "system." = false ∧
    respZeroW.viewErrmsg = false ∧
    (processCollection recW respZeroW).2.inCache ≠ respZeroW.cache.bytesInCache := by
  decide

/-- C4 (amended): after the Sampler processes a collection whose namespace
is not `system.`-prefixed, that is not a view, **and whose reported data
size is positive**, the record's four stored counters equal the current
cumulative values and every index record's stored counters are overwritten
with that index's current values; when the data size is not positive the
`continue` skips all of these updates. -/
theorem C4_counters_overwritten (collInfo : CollectionRecord)
    (collStats : CollStatsResponse)
    (h1 : pyStartswith collInfo.coll "system." = false)
    (h2 : collStats.viewErrmsg = false)
    (h3 : 0 < collStats.size.getD 0) :
    (processCollection collInfo collStats).2.inCache = collStats.cache.bytesInCache ∧
    (processCollection collInfo collStats).2.cacheRead = collStats.cache.bytesReadInto ∧
    (processCollection collInfo collStats).2.cacheWrite = collStats.cache.bytesWrittenFrom ∧
    (processCollection collInfo collStats).2.pagesUsed = collStats.cache.pagesRequested ∧
    ((processCollection collInfo collStats).2.indexesInfo.all fun idx =>
      decide (idx.inCache = (collStats.indexDetails idx.name).bytesInCache ∧
        idx.cacheRead = (collStats.indexDetails idx.name).bytesReadInto ∧
        idx.cacheWrite = (collStats.indexDetails idx.name).bytesWrittenFrom ∧
        idx.pagesUsed = (collStats.indexDetails idx.name).pagesRequested)) = true := by
  rw [processCollection_snd_pos collInfo collStats h1 h2 h3]
  refine ⟨rfl, rfl, rfl, rfl, ?_⟩
  rw [List.all_eq_true]
  intro idx hidx
  rw [List.mem_map] at hidx
  obtain ⟨i, hi, rfl⟩ := hidx
  rw [decide_eq_true_eq, processIndex_snd_eq]
  exact ⟨rfl, rfl, rfl, rfl⟩

/-- C4 (witness): on the sample record and response with positive data
size, all stored counters equal the current values after the pass. -/
theorem C4_counters_overwritten_witness :
    (processCollection recW respW).2.inCache = respW.cache.bytesInCache ∧
    (processCollection recW respW).2.cacheRead = respW.cache.bytesReadInto ∧
    (processCollection recW respW).2.cacheWrite = respW.cache.bytesWrittenFrom ∧
    (processCollection recW respW).2.pagesUsed = respW.cache.pagesRequested ∧
    ((processCollection recW respW).2.indexesInfo.all fun idx =>
      decide (idx.inCache = (respW.indexDetails idx.name).bytesInCache ∧
        idx.cacheRead = (respW.indexDetails idx.name).bytesReadInto ∧
        idx.cacheWrite = (respW.indexDetails idx.name).bytesWrittenFrom ∧
        idx.pagesUsed = (respW.indexDetails idx.name).pagesRequested)) = true :=
  C4_counters_overwritten recW respW (by decide) (by decide) (by decide)

/-- C3 (counterexample): feeding the same current values twice does not
always make the second run's deltas zero: on a collection whose response
reports data size 0, the first run skips the state update, so the second
run's in-cache delta is 5, not 0. -/
theorem C3_second_run_counterexample :
    pyStartswith recW.coll "system." = false ∧
    respZeroW.viewErrmsg = false ∧
    (processCollection recW respZeroW).2.inCache ≠ respZeroW.cache.bytesInCache ∧
    delta (processCollection recW respZeroW).2.inCache
      respZeroW.cache.bytesInCache reportTime = 5 := by
  decide

/-- C3 (amended): on a collection whose namespace is not
`system.`-prefixed, that is not a view, **and whose reported data size is
positive**, running the Sampler a second time with the same current
cumulative counter values yields delta 0 for all four counters on every
row of the second run (collection row and index rows alike), because the
first run's state update made previous equal current. -/
theorem C3_second_run_zero_deltas (collInfo : CollectionRecord)
    (collStats : CollStatsResponse)
    (h1 : pyStartswith collInfo.coll "system." = false)
    (h2 : collStats.viewErrmsg = false)
    (h3 : 0 < collStats.size.getD 0) :
    ((processCollection (processCollection collInfo collStats).2 collStats).1.all
      fun row => decide (row.sizeDiff = 0 ∧ row.readDiff = 0 ∧
        row.writeDiff = 0 ∧ row.pageUseDiff = 0)) = true := by
  have hc : (processCollection collInfo collStats).2.coll = collInfo.coll := by
    rw [processCollection_snd_pos collInfo collStats h1 h2 h3]
  have h1' : pyStartswith (processCollection collInfo collStats).2.coll "system." = false := by
    rw [hc]; exact h1
  rw [processCollection_fst_pos _ collStats h1' h2 h3,
      processCollection_snd_pos collInfo collStats h1 h2 h3]
  rw [List.all_eq_true]
  intro row hrow
  rw [decide_eq_true_eq]
  simp only [List.mem_cons, List.mem_filterMap, List.mem_map] at hrow
  rcases hrow with rfl | ⟨i, hi, hsome⟩
  · exact ⟨delta_self _ _, delta_self _ _, delta_self _ _, delta_self _ _⟩
  · obtain ⟨a, ha, rfl⟩ := hi
    obtain ⟨b, hb, rfl⟩ := ha
    rw [processIndex_fst_eq] at hsome
    split at hsome
    · cases hsome
      exact ⟨delta_self _ _, delta_self _ _, delta_self _ _, delta_self _ _⟩
    · cases hsome

/-- C3 (witness): on the sample record and response with positive data
size, the second run's rows all carry zero deltas. -/
theorem C3_second_run_zero_deltas_witness :
    ((processCollection (processCollection recW respW).2 respW).1.all
      fun row => decide (row.sizeDiff = 0 ∧ row.readDiff = 0 ∧
        row.writeDiff = 0 ∧ row.pageUseDiff = 0)) = true :=
  C3_second_run_zero_deltas recW respW (by decide) (by decide) (by decide)

/-- Every row emitted by the CLI loop for one collection has a positive
denominator size: the collection row carries a positive data size and each
index row a positive index size. -/
theorem processCollection_rows_pos (collInfo : CollectionRecord)
    (collStats : CollStatsResponse) :
    ∀ row ∈ (processCollection collInfo collStats).1,
      0 < row.dataSize.getD row.storageSize := by
  intro row hrow
  by_cases h1 : pyStartswith collInfo.coll "system." = true
  · simp [processCollection, h1] at hrow
  · simp only [Bool.not_eq_true] at h1
    by_cases h2 : collStats.viewErrmsg = true
    · simp [processCollection, h1, h2] at hrow
    · simp only [Bool.not_eq_true] at h2
      by_cases h3 : 0 < collStats.size.getD 0
      · rw [processCollection_fst_pos collInfo collStats h1 h2 h3] at hrow
        simp only [List.mem_cons, List.mem_filterMap, List.mem_map] at hrow
        rcases hrow with rfl | ⟨i, hi, hsome⟩
        · simpa using h3
        · obtain ⟨a, ha, rfl⟩ := hi
          rw [processIndex_fst_eq] at hsome
          split at hsome
          next hcond =>
            cases hsome
            simpa using hcond
          next => cases hsome
      · rw [processCollection_nonpos collInfo collStats h1 h2 h3] at hrow
        simp at hrow

/-- The key of a tracking record — database, collection and the list of
index names — is never changed by a sampling pass over it. -/
theorem processCollection_key (collInfo : CollectionRecord)
    (collStats : CollStatsResponse) :
    ((processCollection collInfo collStats).2.db,
     (processCollection collInfo collStats).2.coll,
     (processCollection collInfo collStats).2.indexesInfo.map IndexRecord.name) =
    (collInfo.db, collInfo.coll, collInfo.indexesInfo.map IndexRecord.name) := by
  by_cases h1 : pyStartswith collInfo.coll "system." = true
  · simp [processCollection, h1]
  · simp only [Bool.not_eq_true] at h1
    by_cases h2 : collStats.viewErrmsg = true
    · simp [processCollection, h1, h2]
    · simp only [Bool.not_eq_true] at h2
      by_cases h3 : 0 < collStats.size.getD 0
      · rw [processCollection_snd_pos collInfo collStats h1 h2 h3]
        simp [List.map_map, Function.comp, processIndex_snd_name]
      · rw [processCollection_nonpos collInfo collStats h1 h2 h3]

/-- C5 (counterexample): the dashboard variant does **not** exclude rows
with a zero denominator: a collection reporting data size 0 and index size
0 still contributes a collection row and an index row to the detailed
table. -/
theorem C5_zero_size_row_counterexample :
    ((stProcessColl statsZeroSizesW "db1" collEntryW).map fun p =>
       p.2.map fun r => (r.rowType, r.dataSize, r.storageSize)) =
      some [("Collection", some 0, 0), ("Index", none, 0)] := by
  decide

/-- C5 (amended): in the CLI variant, every rendered row of every interval
has a positive denominator size (rows with zero or unknown denominator are
omitted, not an error); the dashboard variant instead emits its collection
row and one row per index unconditionally, whatever the sizes are. -/
theorem C5_zero_size_rows (recs : List CollectionRecord)
    (stats : String → String → CollStatsResponse)
    (collstats : String → String → CollStatsResponse) (dbName : String)
    (c : CollEntry) (d : Int)
    (hv : c.collType ≠ "view")
    (hsys : pyStartswith c.name "system." = false)
    (he : (collstats dbName c.name).viewErrmsg = false)
    (hd : (collstats dbName c.name).size = some d) :
    ((samplerStep recs stats).1.all fun row =>
      decide (0 < row.dataSize.getD row.storageSize)) = true ∧
    ((stProcessColl collstats dbName c).map fun p => p.2.length) =
      some ((collstats dbName c.name).indexDetailsKeys.length + 1) := by
  constructor
  · rw [List.all_eq_true]
    intro row hrow
    rw [decide_eq_true_eq]
    simp only [samplerStep, List.mem_flatten, List.mem_map] at hrow
    obtain ⟨s, hs1, hmem⟩ := hrow
    obtain ⟨x, hx, rfl⟩ := hs1
    obtain ⟨r, hr, rfl⟩ := hx
    exact processCollection_rows_pos r (stats r.db r.coll) row hmem
  · simp [stProcessColl, hv, hsys, he, hd]

/-- C5 (witness): one tracked collection with positive sizes yields only
positive-denominator CLI rows, and the dashboard emits two rows (collection
plus one index) for the sample collection. -/
theorem C5_zero_size_rows_witness :
    ((samplerStep [recW] statsW).1.all fun row =>
      decide (0 < row.dataSize.getD row.storageSize)) = true ∧
    ((stProcessColl statsW "db1" collEntryW).map fun p => p.2.length) =
      some ((statsW "db1" collEntryW.name).indexDetailsKeys.length + 1) :=
  C5_zero_size_rows [recW] statsW statsW "db1" collEntryW 100
    (by decide) (by decide) (by decide) (by decide)

/-- C7 (counterexample): the dashboard variant re-enumerates databases on
every refresh, so a collection `db1.fresh` created after startup appears in
the refresh that first lists it, while the startup enumeration produced no
row for it — collections created after startup **are** monitored by the
dashboard. -/
theorem C7_dashboard_new_collection_counterexample :
    ((stGetCollectionStats statsW dbsAfterW).map fun p => p.2.map StRow.ns) =
      some ["db1.orders", "db1.orders", "db1.fresh", "db1.fresh"] ∧
    ((stGetCollectionStats statsW dbsBeforeW).map fun p => p.2.map StRow.ns) =
      some ["db1.orders", "db1.orders"] := by
  decide

/-- C7 (amended): in the CLI variant the set of tracked collections and
indexes is fixed after inventory construction: a sampling pass never adds
or removes a CollectionRecord or IndexRecord and never renames one, so
collections created after startup are never monitored there; the dashboard
variant instead re-derives its row set from a fresh enumeration on every
refresh. -/
theorem C7_cli_inventory_fixed (recs : List CollectionRecord)
    (stats : String → String → CollStatsResponse) :
    (samplerStep recs stats).2.map
        (fun r => (r.db, r.coll, r.indexesInfo.map IndexRecord.name)) =
      recs.map fun r => (r.db, r.coll, r.indexesInfo.map IndexRecord.name) := by
  simp only [samplerStep, List.map_map]
  refine List.map_congr_left ?_
  intro r _
  exact processCollection_key r (stats r.db r.coll)

/-- C10: when the per-collection statistics response has no `storageSize`
field, the storage size reported equals the logical data size in all three
places that read it — the CLI inventory, the CLI monitoring loop's record
update and the dashboard's collection row. -/
theorem C10_storage_size_defaults (dbName collName : String)
    (idxNames : List String) (collStats : CollStatsResponse)
    (collInfo : CollectionRecord)
    (collstats : String → String → CollStatsResponse) (c : CollEntry) (d : Int)
    (hns : collStats.storageSize = none)
    (h1 : pyStartswith collInfo.coll "system." = false)
    (h2 : collStats.viewErrmsg = false)
    (hv : c.collType ≠ "view")
    (hsys : pyStartswith c.name "system." = false)
    (he : (collstats dbName c.name).viewErrmsg = false)
    (hd : (collstats dbName c.name).size = some d)
    (hn : (collstats dbName c.name).storageSize = none) :
    (inventoryCollectionRecord dbName collName idxNames (some collStats)).storageSize =
      (inventoryCollectionRecord dbName collName idxNames (some collStats)).dataSize ∧
    (processCollection collInfo collStats).2.storageSize =
      (processCollection collInfo collStats).2.dataSize ∧
    ((stProcessColl collstats dbName c).map fun p =>
        p.2.head?.map fun r => (r.storageSize, r.dataSize)) =
      some (some (d, some d)) := by
  refine ⟨?_, ?_, ?_⟩
  · simp [inventoryCollectionRecord, hns]
  · by_cases h3 : 0 < collStats.size.getD 0
    · rw [processCollection_snd_pos collInfo collStats h1 h2 h3]
      simp [hns]
    · rw [processCollection_nonpos collInfo collStats h1 h2 h3]
      simp [hns]
  · simp [stProcessColl, hv, hsys, he, hd, hn]

/-- C10 (witness): on the sample response lacking `storageSize`, inventory,
loop update and dashboard row all report storage size equal to the data
size (100). -/
theorem C10_storage_size_defaults_witness :
    (inventoryCollectionRecord "db1" "orders" ["f_1"] (some respNoStorageW)).storageSize =
      (inventoryCollectionRecord "db1" "orders" ["f_1"] (some respNoStorageW)).dataSize ∧
    (processCollection recW respNoStorageW).2.storageSize =
      (processCollection recW respNoStorageW).2.dataSize ∧
    (((fun _ _ => respNoStorageW : String → String → CollStatsResponse)
        |> fun f => stProcessColl f "db1" collEntryW).map fun p =>
        p.2.head?.map fun r => (r.storageSize, r.dataSize)) =
      some (some (100, some 100)) := by
  have h := C10_storage_size_defaults "db1" "orders" ["f_1"] respNoStorageW recW
    (fun _ _ => respNoStorageW) collEntryW 100 (by decide) (by decide) (by decide)
    (by decide) (by decide) (by decide) (by decide) (by decide)
  exact h

/-- C6 (counterexample): the dashboard's "Cache Usage" summary metric
divides the used-cache total by the configured cache size with no guard, so
a zero configured cache size raises a division-by-zero error instead of
short-circuiting to a default. -/
theorem C6_unguarded_division_counterexample :
    stSummaryCacheUsage 500 0 = Except.error () := by
  simp [stSummaryCacheUsage, pyDiv]

/-- C6 (amended): every percentage or rate computation in both variants
whose denominator can be zero is short-circuited to a default instead of
raising — except the dashboard's "Cache Usage" summary metric, which
divides unguarded: the percent-cached figures, the two dashboard
percentage columns, the estimated-documents figure, the total-index
percentage and the delta computation never raise for any input. -/
theorem C6_guarded_divisions_never_raise (x y z : Int) :
    (doc_cache_pct_checked x y).isOk = true ∧
    (index_cache_pct_checked x y).isOk = true ∧
    (pct_of_total_cache x y).isOk = true ∧
    (pct_of_used_cache x y).isOk = true ∧
    (est_docs_in_cache_checked x y z).isOk = true ∧
    (st_total_index_cache_pct x y).isOk = true ∧
    (delta_checked x y).isOk = true := by
  have hover : COLLECTION_CACHE_OVERHEAD ≠ 0 := by norm_num [COLLECTION_CACHE_OVERHEAD]
  have hidx : INDEX_CACHE_OVERHEAD ≠ 0 := by norm_num [INDEX_CACHE_OVERHEAD]
  have hrt : ((reportTime : Int) : ℚ) ≠ 0 := by norm_num [reportTime]
  have hyq : 0 < y → ((y : Int) : ℚ) ≠ 0 := fun hy => by exact_mod_cast hy.ne'
  refine ⟨?_, ?_, ?_, ?_, ?_, ?_, ?_⟩
  · by_cases hy : 0 < y
    · simp [doc_cache_pct_checked, pyDiv, hover, hy, hyq hy, Except.isOk, Except.toBool, Bind.bind, Except.bind]
    · simp [doc_cache_pct_checked, pyDiv, hover, hy, Except.isOk, Except.toBool, Bind.bind, Except.bind]
  · by_cases hy : 0 < y
    · simp [index_cache_pct_checked, pyDiv, hidx, hy, hyq hy, Except.isOk, Except.toBool, Bind.bind, Except.bind]
    · simp [index_cache_pct_checked, pyDiv, hidx, hy, Except.isOk, Except.toBool, Bind.bind, Except.bind]
  · by_cases hy : 0 < y
    · simp [pct_of_total_cache, pyDiv, hy, hyq hy, Except.isOk, Except.toBool, Bind.bind, Except.bind]
    · simp [pct_of_total_cache, pyDiv, hy, Except.isOk, Except.toBool, Bind.bind, Except.bind]
  · by_cases hy : 0 < y
    · simp [pct_of_used_cache, pyDiv, hy, hyq hy, Except.isOk, Except.toBool, Bind.bind, Except.bind]
    · simp [pct_of_used_cache, pyDiv, hy, Except.isOk, Except.toBool, Bind.bind, Except.bind]
  · by_cases hy : 0 < y
    · simp [est_docs_in_cache_checked, pyDiv, hover, hy, hyq hy, Except.isOk, Except.toBool, Bind.bind, Except.bind]
    · simp [est_docs_in_cache_checked, pyDiv, hover, hy, Except.isOk, Except.toBool, Bind.bind, Except.bind]
  · by_cases hy : 0 < y
    · simp [st_total_index_cache_pct, pyDiv, hy, hyq hy, Except.isOk, Except.toBool, Bind.bind, Except.bind]
    · simp [st_total_index_cache_pct, pyDiv, hy, Except.isOk, Except.toBool, Bind.bind, Except.bind]
  · simp [delta_checked, pyDiv, hrt, Except.isOk, Except.toBool, Bind.bind, Except.bind]

end MongoCacheStats
